import Mathlib

/-
Verification development for django_nameko/rpc.py.

The source is a connection pool (class ClusterRpcProxyPool) around nameko
ClusterRpcProxy sessions, plus a lazy module-level registry (get_pool).
We shallowly embed the pool as a Lean structure and each Python method as a
Lean function over it.  Underlying transport sessions (RpcContext objects)
are identified by natural-number ids handed out by a ghost counter
`nextId`; the ghost field `closed` records, in order, the ids on which
RpcContext.stop (which stops the underlying ClusterRpcProxy) has been
called.  Neither ghost field changes the observable queue behaviour; they
only make "a fresh session was created" and "this session was destroyed"
stateable.

Python runtime facts that the embedding encodes (each is documented at the
definition that uses it):
* queue.Queue() is constructed with maxsize 0, i.e. unbounded; Queue.full()
  is then always False and Queue.put never blocks.
* Queue.get(block=True, timeout=False): False compares equal to 0, so the
  CPython implementation computes an already-expired deadline and raises
  queue.Empty immediately on an empty queue instead of waiting.
* An exception instance never compares equal (==) to a str, because
  BaseException does not define __eq__ and default object equality is
  identity.
-/

/-- Python dict with string keys and (for our purposes) integer-like
values, embedded as an association list in insertion order. -/
abbrev Dict := List (String × Nat)

/-- Python d[k] lookup returning an option: first entry whose key matches.
Dicts produced by Python code have unique keys, so first-match and
last-match agree on them. -/
def Dict.getd : Dict → String → Option Nat
  | [], _ => none
  | (k1, v) :: rest, k => if k1 == k then some v else Dict.getd rest k

/-- Python d[k] = v: replace the value at an existing key in place,
otherwise append the new entry (insertion order preserved). -/
def Dict.setk : Dict → String → Nat → Dict
  | [], k, v => [(k, v)]
  | (k1, v1) :: rest, k, v =>
    if k1 == k then (k, v) :: rest
    else (k1, v1) :: Dict.setk rest k v

/-- Python d.update(e): assign every entry of e into d, left to right. -/
def Dict.update (d e : Dict) : Dict :=
  e.foldl (fun a kv => Dict.setk a kv.1 kv.2) d

/-- Keys of a Python dict are unique; association lists coming from real
dicts satisfy this. -/
def Dict.keysNodup (d : Dict) : Prop := (d.map Prod.fst).Nodup

instance (d : Dict) : Decidable (Dict.keysNodup d) :=
  inferInstanceAs (Decidable (d.map Prod.fst).Nodup)

/-- First-some choice on options, used to state merge results. -/
def optOr (a b : Option Nat) : Option Nat :=
  match a with
  | some v => some v
  | none => b

/-- Exception classes that the exit handler of RpcContext distinguishes:
RuntimeError, amqp ConnectionError, and any other class.  `exc_type ==
RuntimeError` in the source is an exact class comparison, which this
embedding mirrors. -/
inductive PyType
  | runtimeError
  | connectionError
  | otherError
  deriving DecidableEq

/-- The exc_type/exc_value pair passed to __exit__: `none` when the scope
ended without an exception, otherwise the class together with the message
the exception instance was constructed from. -/
abbrev ExcInfo := Option (PyType × String)

/-- Errors that the embedded Python code can raise to its caller. -/
inductive PyErr
  | attributeError
  | improperlyConfigured
  deriving DecidableEq

def consumerStoppedMsg : String :=
  "This consumer has been stopped, and can no longer be used"

def consumerDisconnectedMsg : String :=
  "This consumer has been disconnected, and can no longer be used"

/-- Python comparison `exc_value == s` where exc_value is an exception
instance and s a str.  BaseException does not define __eq__, so the
comparison falls back to default object equality (identity); an exception
instance is never the same object as a string, hence the result is False
for every exception and every string, regardless of the message the
exception carries. -/
def pyExcValueEqStr (e : PyType × String) (s : String) : Bool := false

/-- Whether exc_type equals (==) the given class; None matches nothing. -/
def excTypeIs (exc : ExcInfo) (t : PyType) : Bool :=
  match exc with
  | none => false
  | some (ty, _) => ty == t

/-- The condition of the first branch of RpcContext.__exit__:
exc_type == RuntimeError and (exc_value == msg1 or exc_value == msg2).
Because `pyExcValueEqStr` is constantly False (see its docstring), this
condition is False for every exception. -/
def staleBranchTaken (exc : ExcInfo) : Bool :=
  excTypeIs exc PyType.runtimeError &&
    (match exc with
     | none => false
     | some ev => pyExcValueEqStr ev consumerStoppedMsg ||
                  pyExcValueEqStr ev consumerDisconnectedMsg)

/-- The stale-consumer signature as the spec describes it: a RuntimeError
whose message is one of the two known strings.  This is the predicate the
source INTENDS to test; compare `staleBranchTaken`, which is what it
actually tests. -/
def isStaleConsumerError (exc : ExcInfo) : Bool :=
  match exc with
  | none => false
  | some (ty, msg) => ty == PyType.runtimeError &&
      (msg == consumerStoppedMsg || msg == consumerDisconnectedMsg)

/-- The connection-error signature: exc_type == ConnectionError. -/
def isConnectionError (exc : ExcInfo) : Bool :=
  excTypeIs exc PyType.connectionError

/-- Django settings attributes read by the source, each optional to model
getattr defaults; NAMEKO_CONFIG is abstracted to its truthiness. -/
structure PySettings where
  NAMEKO_POOL_SIZE : Option Nat
  NAMEKO_CONTEXT_DATA : Option Dict
  NAMEKO_TIMEOUT : Option Nat
  NAMEKO_CONFIG : Bool
  NAMEKO_MULTI_POOL : Option (List String)
  NAMEKO_MULTI_CONTEXT_DATA : Option (List (String × Dict))
  deriving DecidableEq

/-- The pool object.  `queue` is `none` when the attribute is absent
(before start) or None (after stop); when present it holds the buffered
session ids front-to-back in FIFO order (Queue.put appends at the back,
Queue.get removes at the front).  `nextId` and `closed` are the ghost
instrumentation described in the file header. -/
structure ClusterRpcProxyPool where
  pool_size : Nat
  context_data : Option Dict
  timeout : Option Nat
  state : String
  queue : Option (List Nat)
  nextId : Nat
  closed : List Nat
  deriving DecidableEq

/-- ClusterRpcProxyPool.__init__(config, pool_size=None, context_data=None,
timeout=0): each None (resp. non-positive timeout) argument falls back to
the corresponding settings attribute.  The config itself carries no
behaviour we track. -/
def ClusterRpcProxyPool.ofSettings (s : PySettings) (psz : Option Nat)
    (cdata : Option Dict) (tmo : Nat) : ClusterRpcProxyPool :=
  { pool_size := match psz with
      | none => s.NAMEKO_POOL_SIZE.getD 4
      | some n => n
    context_data := match cdata with
      | none => s.NAMEKO_CONTEXT_DATA
      | some d => some d
    timeout := if tmo ≤ 0 then s.NAMEKO_TIMEOUT else some tmo
    state := "NOT_STARTED"
    queue := none
    nextId := 0
    closed := [] }

/-- The ids of n sessions freshly created while the ghost counter stands
at nid. -/
def freshIds (nid n : Nat) : List Nat :=
  (List.range n).map (fun i => nid + i)

/-- ClusterRpcProxyPool.start: self.queue = Queue(); put pool_size fresh
RpcContexts; self.state = STARTED.  A queue that existed before is simply
replaced; nothing in it is stopped. -/
def ClusterRpcProxyPool.start (p : ClusterRpcProxyPool) : ClusterRpcProxyPool :=
  { p with
    queue := some (freshIds p.nextId p.pool_size)
    nextId := p.nextId + p.pool_size
    state := "STARTED" }

/-- Property is_started: self.state != NOT_STARTED. -/
def ClusterRpcProxyPool.is_started (p : ClusterRpcProxyPool) : Bool :=
  p.state != "NOT_STARTED"

/-- Outcome of ClusterRpcProxyPool.next, i.e. of self.queue.get(timeout=False).
CPython Queue.get(block=True, timeout=t) with t not None and t == 0 (and
False == 0) computes endtime = now + 0, so on an empty queue the remaining
time is already ≤ 0 and queue.Empty is raised at once; it does NOT wait.
`blocksForever` is what get(block=True, timeout=None) would do on an empty
queue; the source never calls get that way, so no definition below
produces it.  `attributeError` is the AttributeError raised when
self.queue is absent (pool never started) or None (pool stopped). -/
inductive NextResult
  | ok (ctx : Nat) (p : ClusterRpcProxyPool)
  | raisesEmpty
  | blocksForever
  | attributeError
  deriving DecidableEq

/-- ClusterRpcProxyPool.next(self, timeout=False): return
self.queue.get(timeout=False).  The `timeout` parameter of next is
accepted but never used; the body hardcodes timeout=False in the get
call. -/
def ClusterRpcProxyPool.next (p : ClusterRpcProxyPool) (timeout : Bool) : NextResult :=
  match p.queue with
  | none => NextResult.attributeError
  | some [] => NextResult.raisesEmpty
  | some (x :: rest) => NextResult.ok x { p with queue := some rest }

/-- Queue maxsize: queue_six.Queue() is constructed with the default
maxsize of 0, i.e. unbounded. -/
def queueMaxsize : Nat := 0

/-- Queue.full(): 0 < maxsize and maxsize <= qsize; always False for the
unbounded queue the source creates. -/
def queueFull (q : List Nat) : Bool :=
  decide (0 < queueMaxsize) && decide (queueMaxsize ≤ q.length)

/-- The loop body of _reload: for each of n iterations, if the queue is
not full, create a fresh RpcContext and put_nowait it.  Returns the queue
and the ghost id counter after the loop. -/
def reloadLoop : List Nat → Nat → Nat → List Nat × Nat
  | q, nid, 0 => (q, nid)
  | q, nid, n + 1 =>
    if queueFull q then reloadLoop q nid n
    else reloadLoop (q ++ [nid]) (nid + 1) n

/-- ClusterRpcProxyPool._reload(num_of_worker=0): a non-positive argument
means pool_size; then run the creation loop.  Touching self.queue when it
is absent or None raises AttributeError. -/
def ClusterRpcProxyPool._reload (p : ClusterRpcProxyPool) (num_of_worker : Nat) :
    Except PyErr ClusterRpcProxyPool :=
  match p.queue with
  | none => Except.error PyErr.attributeError
  | some q =>
    let n := if num_of_worker ≤ 0 then p.pool_size else num_of_worker
    let r := reloadLoop q p.nextId n
    Except.ok { p with queue := some r.1, nextId := r.2 }

/-- ClusterRpcProxyPool._clear: while not queue.empty(): self.next().
Each fetched RpcContext is discarded without calling its stop(); the loop
leaves the queue empty.  (Under the no-concurrency embedding the drain
is exact.) -/
def ClusterRpcProxyPool._clear (p : ClusterRpcProxyPool) :
    Except PyErr ClusterRpcProxyPool :=
  match p.queue with
  | none => Except.error PyErr.attributeError
  | some _ => Except.ok { p with queue := some [] }

/-- ClusterRpcProxyPool._put_back(ctx): self.queue.put(ctx); the queue is
unbounded so put never blocks. -/
def ClusterRpcProxyPool._put_back (p : ClusterRpcProxyPool) (ctx : Nat) :
    Except PyErr ClusterRpcProxyPool :=
  match p.queue with
  | none => Except.error PyErr.attributeError
  | some q => Except.ok { p with queue := some (q ++ [ctx]) }

/-- ClusterRpcProxyPool.stop: get_nowait and ctx.stop() every buffered
RpcContext until Empty, clear the deque, then self.queue = None.  The
state string is not touched. -/
def ClusterRpcProxyPool.stop (p : ClusterRpcProxyPool) :
    Except PyErr ClusterRpcProxyPool :=
  match p.queue with
  | none => Except.error PyErr.attributeError
  | some q => Except.ok { p with queue := none, closed := p.closed ++ q }

/-- RpcContext.stop of the session `ctx`: proxy.stop() plus clearing the
fields; in the embedding it records the id as closed. -/
def ctxStop (p : ClusterRpcProxyPool) (ctx : Nat) : ClusterRpcProxyPool :=
  { p with closed := p.closed ++ [ctx] }

/-- RpcContext.__exit__ for the checked-out session `ctx`:
if exc_type == RuntimeError and exc_value == one of the two messages:
  pool._clear(); pool._reload(); self.stop()
elif exc_type == ConnectionError: pool._reload(1); self.stop()
else: pool._put_back(self).
The surrounding except ReferenceError arm (pool garbage-collected) is not
modelled: every claim is about a live pool. -/
def RpcContext.exit (p : ClusterRpcProxyPool) (ctx : Nat) (exc : ExcInfo) :
    Except PyErr ClusterRpcProxyPool :=
  if staleBranchTaken exc then
    match p._clear with
    | Except.error e => Except.error e
    | Except.ok p1 =>
      match p1._reload 0 with
      | Except.error e => Except.error e
      | Except.ok p2 => Except.ok (ctxStop p2 ctx)
  else if isConnectionError exc then
    match p._reload 1 with
    | Except.error e => Except.error e
    | Except.ok p1 => Except.ok (ctxStop p1 ctx)
  else
    p._put_back ctx

/-- Number of sessions currently buffered (0 when the buffer is absent). -/
def bufSize (p : ClusterRpcProxyPool) : Nat :=
  match p.queue with
  | none => 0
  | some q => q.length

/-- Settings object with every optional attribute absent, used to build
concrete pools the way ClusterRpcProxyPool(config, pool_size=n) would. -/
def defaultPySettings : PySettings :=
  { NAMEKO_POOL_SIZE := none
    NAMEKO_CONTEXT_DATA := none
    NAMEKO_TIMEOUT := none
    NAMEKO_CONFIG := true
    NAMEKO_MULTI_POOL := none
    NAMEKO_MULTI_CONTEXT_DATA := none }

/-- A freshly constructed pool of the given capacity. -/
def initPool (n : Nat) : ClusterRpcProxyPool :=
  ClusterRpcProxyPool.ofSettings defaultPySettings (some n) none 0

/-- The pool after one successful checkout (helper to build concrete
states by running the operations themselves). -/
def afterCheckout (p : ClusterRpcProxyPool) : ClusterRpcProxyPool :=
  match p.next false with
  | NextResult.ok _ p2 => p2
  | _ => p

/-- The pool after stop() (helper for concrete states). -/
def afterStop (p : ClusterRpcProxyPool) : ClusterRpcProxyPool :=
  match p.stop with
  | Except.ok p2 => p2
  | Except.error _ => p

/-- The module-level global `pool`: either the single implicitly-started
pool or the name-to-pool dict built from NAMEKO_MULTI_POOL. -/
inductive GlobalPool
  | single (p : ClusterRpcProxyPool)
  | multi (m : List (String × ClusterRpcProxyPool))
  deriving DecidableEq

/-- What get_pool hands back: one pool, or (for a call without a name when
multi pools are configured) the whole dict. -/
inductive GetPoolRes
  | pool (p : ClusterRpcProxyPool)
  | mapping (m : List (String × ClusterRpcProxyPool))
  deriving DecidableEq

/-- Python truthiness of the global `pool` as tested by `if not pool:`;
None is falsy, an object is truthy, a dict is truthy iff nonempty. -/
def globalTruthy : Option GlobalPool → Bool
  | none => false
  | some (GlobalPool.single _) => true
  | some (GlobalPool.multi m) => !m.isEmpty

/-- multi_context_data.get(name, dict()). -/
def specificBag (s : PySettings) (name : String) : Dict :=
  ((((s.NAMEKO_MULTI_CONTEXT_DATA.getD []).find? (fun kv => kv.1 == name)).map
    Prod.snd)).getD []

/-- The context bag a named pool is constructed with:
pool_context_data = multi_context_data.get(name, dict());
pool_context_data.update(context_data) — i.e. the name-specific bag with
the shared default bag assigned over it.  (The in-place mutation of the
settings dict that update performs is irrelevant to a single call.) -/
def poolContextFor (s : PySettings) (name : String) : Dict :=
  (specificBag s name).update (s.NAMEKO_CONTEXT_DATA.getD [])

/-- The pool constructed for one declared name:
ClusterRpcProxyPool(settings.NAMEKO_CONFIG, context_data=pool_context_data). -/
def namedPool (s : PySettings) (name : String) : ClusterRpcProxyPool :=
  ClusterRpcProxyPool.ofSettings s none (some (poolContextFor s name)) 0

/-- The loop body of the multi-pool branch: one NOT_STARTED pool per
declared name, each with its merged context bag. -/
def multiPools (s : PySettings) (names : List String) :
    List (String × ClusterRpcProxyPool) :=
  names.map (fun name => (name, namedPool s name))

/-- The lazy-construction step of get_pool, run when the global is falsy:
raise ImproperlyConfigured unless NAMEKO_CONFIG is set and truthy; build
the dict of pools when NAMEKO_MULTI_POOL is truthy (a nonempty list),
otherwise build and immediately start the single pool. -/
def constructGlobal (s : PySettings) : Except PyErr GlobalPool :=
  if s.NAMEKO_CONFIG = false then Except.error PyErr.improperlyConfigured
  else
    match s.NAMEKO_MULTI_POOL with
    | some names =>
      if names.isEmpty then
        Except.ok (GlobalPool.single ((ClusterRpcProxyPool.ofSettings s none none 0).start))
      else Except.ok (GlobalPool.multi (multiPools s names))
    | none =>
      Except.ok (GlobalPool.single ((ClusterRpcProxyPool.ofSettings s none none 0).start))

/-- Starting the named pool mutates the object stored in the dict; the
embedding rewrites every entry whose key matches. -/
def setAssoc (m : List (String × ClusterRpcProxyPool)) (n : String)
    (p : ClusterRpcProxyPool) : List (String × ClusterRpcProxyPool) :=
  m.map (fun kv => if kv.1 == n then (n, p) else kv)

/-- get_pool(pool_name=None).  `g` is the current value of the module
global; the returned pair is the function result together with the new
value of the global.  With a name: error unless the global is a nonempty
dict containing the name; fetch the pool, start it if not yet started,
return it.  Without a name: return the global as is. -/
def get_pool (s : PySettings) (g : Option GlobalPool) (pool_name : Option String) :
    Except PyErr (GetPoolRes × GlobalPool) :=
  let gAcq : Except PyErr GlobalPool :=
    if globalTruthy g then Except.ok (g.getD (GlobalPool.multi [])) else constructGlobal s
  match gAcq with
  | Except.error e => Except.error e
  | Except.ok g1 =>
    match pool_name with
    | none =>
      match g1 with
      | GlobalPool.single p => Except.ok (GetPoolRes.pool p, g1)
      | GlobalPool.multi m => Except.ok (GetPoolRes.mapping m, g1)
    | some n =>
      match g1 with
      | GlobalPool.single _ => Except.error PyErr.improperlyConfigured
      | GlobalPool.multi m =>
        match m.find? (fun kv => kv.1 == n) with
        | none => Except.error PyErr.improperlyConfigured
        | some kv =>
          let p1 := if kv.2.is_started then kv.2 else kv.2.start
          Except.ok (GetPoolRes.pool p1, GlobalPool.multi (setAssoc m n p1))

/-- One caller-side interaction with a pool, for stating whole-history
invariants.  `out` lists the ids currently checked out (most recent
first); exits pick a checked-out session by position. -/
structure SysState where
  pool : ClusterRpcProxyPool
  out : List Nat
  deriving DecidableEq

/-- The operations a pool and its checked-out sessions expose: start,
checkout (next), scope exit of the i-th checked-out session — normally,
with a ConnectionError, or with a stale-consumer RuntimeError — and
stop. -/
inductive Op
  | start
  | checkout
  | checkin (i : Nat)
  | exitConn (i : Nat)
  | exitStale (i : Nat)
  | stopPool
  deriving DecidableEq

/-- Run __exit__ of the i-th checked-out session with the given exc_info;
if the index is invalid or the pool raises, the state is unchanged (the
exception propagates to the caller, who still holds the session). -/
def exitWith (st : SysState) (i : Nat) (exc : ExcInfo) : SysState :=
  match st.out.get? i with
  | none => st
  | some ctx =>
    match RpcContext.exit st.pool ctx exc with
    | Except.ok p2 => { pool := p2, out := st.out.eraseIdx i }
    | Except.error _ => st

/-- Small-step semantics of one operation; operations that raise leave
the state unchanged. -/
def stepOp (st : SysState) (op : Op) : SysState :=
  match op with
  | Op.start => { st with pool := st.pool.start }
  | Op.checkout =>
    match st.pool.next false with
    | NextResult.ok ctx p2 => { pool := p2, out := ctx :: st.out }
    | _ => st
  | Op.checkin i => exitWith st i none
  | Op.exitConn i => exitWith st i (some (PyType.connectionError, "connection error"))
  | Op.exitStale i => exitWith st i (some (PyType.runtimeError, consumerStoppedMsg))
  | Op.stopPool =>
    match st.pool.stop with
    | Except.ok p2 => { st with pool := p2 }
    | Except.error _ => st

/-- Run a sequence of operations from a state. -/
def runOps (ops : List Op) (st : SysState) : SysState :=
  ops.foldl stepOp st

/-- A fresh, not yet started pool of capacity n with nothing checked
out. -/
def initState (n : Nat) : SysState :=
  { pool := initPool n, out := [] }

/-- Number of start operations in a history. -/
def startCount (ops : List Op) : Nat :=
  (ops.filter (fun op => decide (op = Op.start))).length

/- ------------------------------------------------------------------ -/
/- Helper lemmas about the embedded operations.                       -/
/- ------------------------------------------------------------------ -/

theorem freshIds_zero (nid : Nat) : freshIds nid 0 = [] := rfl

theorem freshIds_succ (nid n : Nat) :
    freshIds nid (n + 1) = nid :: freshIds (nid + 1) n := by
  simp only [freshIds, List.range_succ_eq_map, List.map_cons, List.map_map]
  congr 1
  apply List.map_congr_left
  intro a _
  simp [Function.comp]
  omega

theorem freshIds_length (nid n : Nat) : (freshIds nid n).length = n := by
  simp [freshIds]

theorem mem_freshIds {nid n x : Nat} (h : x ∈ freshIds nid n) : nid ≤ x := by
  simp only [freshIds, List.mem_map] at h
  obtain ⟨i, _, rfl⟩ := h
  omega

theorem queueFull_false (q : List Nat) : queueFull q = false := by
  simp [queueFull, queueMaxsize]

theorem reloadLoop_eq (n : Nat) : ∀ q nid,
    reloadLoop q nid n = (q ++ freshIds nid n, nid + n) := by
  induction n with
  | zero => intro q nid; simp [reloadLoop, freshIds_zero]
  | succ m ih =>
    intro q nid
    rw [reloadLoop, queueFull_false]
    simp only [Bool.false_eq_true, if_false]
    rw [ih, freshIds_succ]
    simp only [Prod.mk.injEq]
    constructor
    · simp
    · omega

theorem staleBranchTaken_false (exc : ExcInfo) : staleBranchTaken exc = false := by
  cases exc with
  | none => rfl
  | some ev => simp [staleBranchTaken, pyExcValueEqStr]

/-- The exit handler reduces to _put_back whenever exc_type is not
ConnectionError: the first branch is unreachable because the comparison
of an exception instance with a string is always False. -/
theorem exit_eq_put_back (p : ClusterRpcProxyPool) (ctx : Nat) (exc : ExcInfo)
    (h : isConnectionError exc = false) :
    RpcContext.exit p ctx exc = p._put_back ctx := by
  rw [RpcContext.exit, staleBranchTaken_false, h]
  simp

/-- The exit handler on a ConnectionError: one fresh session is enqueued
at the back and the triggering session is stopped. -/
theorem exit_conn (p : ClusterRpcProxyPool) (ctx : Nat) (q : List Nat) (m : String)
    (hq : p.queue = some q) :
    RpcContext.exit p ctx (some (PyType.connectionError, m)) =
      Except.ok { p with
        queue := some (q ++ [p.nextId])
        nextId := p.nextId + 1
        closed := p.closed ++ [ctx] } := by
  rw [RpcContext.exit, staleBranchTaken_false]
  have hc : isConnectionError (some (PyType.connectionError, m)) = true := rfl
  rw [hc]
  simp only [ClusterRpcProxyPool._reload, hq, if_true]
  have h1 : reloadLoop q p.nextId 1 = (q ++ [p.nextId], p.nextId + 1) := by
    rw [reloadLoop_eq]
    have h2 : List.range 1 = [0] := rfl
    simp [freshIds, h2]
  simp [h1, ctxStop]

theorem getd_setk_self (d : Dict) (k : String) (v : Nat) :
    (Dict.setk d k v).getd k = some v := by
  induction d with
  | nil => simp [Dict.setk, Dict.getd]
  | cons kv rest ih =>
    obtain ⟨k1, v1⟩ := kv
    by_cases h : k1 = k
    · subst h
      simp [Dict.setk, Dict.getd]
    · have hb : (k1 == k) = false := by simp [h]
      simp [Dict.setk, Dict.getd, hb, ih]

theorem getd_setk_ne (d : Dict) (k k2 : String) (v : Nat) (hne : k ≠ k2) :
    (Dict.setk d k v).getd k2 = d.getd k2 := by
  induction d with
  | nil =>
    have hb : (k == k2) = false := by simp [hne]
    simp [Dict.setk, Dict.getd, hb]
  | cons kv rest ih =>
    obtain ⟨k1, v1⟩ := kv
    by_cases h : k1 = k
    · subst h
      have hb : (k1 == k1) = true := by simp
      have hb2 : (k1 == k2) = false := by simp [hne]
      simp [Dict.setk, Dict.getd, hb, hb2]
    · have hb : (k1 == k) = false := by simp [h]
      by_cases h2 : k1 = k2
      · subst h2
        simp [Dict.setk, Dict.getd, hb]
      · have hb2 : (k1 == k2) = false := by simp [h2]
        simp [Dict.setk, Dict.getd, hb, hb2, ih]

theorem getd_eq_none_of_not_mem (d : Dict) (k : String)
    (h : k ∉ d.map Prod.fst) : d.getd k = none := by
  induction d with
  | nil => rfl
  | cons kv rest ih =>
    obtain ⟨k1, v1⟩ := kv
    simp only [List.map_cons, List.mem_cons] at h
    push_neg at h
    have hb : (k1 == k) = false := by
      simp
      exact fun he => h.1 he.symm
    simp [Dict.getd, hb]
    exact ih h.2

/-- Lookup through a Python merge d.update(e) when e is a genuine dict
(unique keys): entries of e win, d fills the rest. -/
theorem getd_update (e : Dict) : ∀ d : Dict, Dict.keysNodup e → ∀ k,
    (d.update e).getd k = optOr (e.getd k) (d.getd k) := by
  induction e with
  | nil => intro d _ k; simp [Dict.update, Dict.getd, optOr]
  | cons kv rest ih =>
    intro d hnd k
    obtain ⟨k1, v1⟩ := kv
    simp only [Dict.keysNodup, List.map_cons, List.nodup_cons] at hnd
    have hstep : Dict.update d ((k1, v1) :: rest) = Dict.update (d.setk k1 v1) rest := rfl
    rw [hstep, ih (d.setk k1 v1) hnd.2 k]
    by_cases h : k1 = k
    · subst h
      have hrest : Dict.getd rest k1 = none :=
        getd_eq_none_of_not_mem rest k1 hnd.1
      have hb : (k1 == k1) = true := by simp
      simp [Dict.getd, hb, hrest, optOr, getd_setk_self]
    · have hb : (k1 == k) = false := by simp [h]
      rw [getd_setk_ne d k1 k v1 h]
      simp [Dict.getd, hb]

theorem find_map_pair (f : String → ClusterRpcProxyPool) (n : String) :
    ∀ names : List String, n ∈ names →
    (names.map (fun a => (a, f a))).find? (fun kv => kv.1 == n) = some (n, f n) := by
  intro names
  induction names with
  | nil => intro h; cases h
  | cons a rest ih =>
    intro hmem
    by_cases h : a = n
    · subst h
      simp [List.find?]
    · have hb : (a == n) = false := by simp [h]
      have hmem2 : n ∈ rest := by
        cases hmem with
        | head => exact absurd rfl h
        | tail _ h2 => exact h2
      simp [List.find?, hb, ih hmem2]

theorem mem_setAssoc_ne (m : List (String × ClusterRpcProxyPool)) (n : String)
    (p : ClusterRpcProxyPool) (kv : String × ClusterRpcProxyPool)
    (hmem : kv ∈ setAssoc m n p) (hne : kv.1 ≠ n) : kv ∈ m := by
  simp only [setAssoc, List.mem_map] at hmem
  obtain ⟨kv0, hkv0, heq⟩ := hmem
  by_cases h : kv0.1 = n
  · have hb : (kv0.1 == n) = true := by simp [h]
    rw [if_pos hb] at heq
    subst heq
    exact absurd rfl hne
  · have hb : (kv0.1 == n) = false := by simp [h]
    rw [if_neg (by simp [hb])] at heq
    subst heq
    exact hkv0

/- ------------------------------------------------------------------ -/
/- Invariant machinery for operation histories.                       -/
/- ------------------------------------------------------------------ -/

/-- A connection-error exc_info is exactly a ConnectionError with some
message. -/
theorem isConnectionError_spec (exc : ExcInfo) (h : isConnectionError exc = true) :
    ∃ m, exc = some (PyType.connectionError, m) := by
  cases exc with
  | none => simp [isConnectionError, excTypeIs] at h
  | some ev =>
    obtain ⟨ty, m⟩ := ev
    cases ty with
    | connectionError => exact ⟨m, rfl⟩
    | runtimeError => simp [isConnectionError, excTypeIs] at h
    | otherError => simp [isConnectionError, excTypeIs] at h

/-- The history invariant: the pool keeps its capacity, and buffered plus
checked-out sessions never number more than the capacity. -/
def SysInv (N : Nat) (st : SysState) : Prop :=
  st.pool.pool_size = N ∧ ∀ q, st.pool.queue = some q → q.length + st.out.length ≤ N

theorem exitWith_inv (N : Nat) (st : SysState) (i : Nat) (exc : ExcInfo)
    (h : SysInv N st) : SysInv N (exitWith st i exc) := by
  rcases hget : st.out.get? i with _ | ctx
  · simp only [exitWith, hget]
    exact h
  · have hi : i < st.out.length := by
      rw [List.get?_eq_getElem?] at hget
      exact (List.getElem?_eq_some_iff.mp hget).1
    have hlen : (st.out.eraseIdx i).length = st.out.length - 1 := by
      rw [List.length_eraseIdx]
      simp [hi]
    by_cases hc : isConnectionError exc = true
    · obtain ⟨m, rfl⟩ := isConnectionError_spec exc hc
      rcases hq : st.pool.queue with _ | q
      · have hexit : RpcContext.exit st.pool ctx (some (PyType.connectionError, m)) =
            Except.error PyErr.attributeError := by
          rw [RpcContext.exit, staleBranchTaken_false]
          simp [isConnectionError, excTypeIs, ClusterRpcProxyPool._reload, hq]
        simp only [exitWith, hget, hexit]
        exact h
      · simp only [exitWith, hget, exit_conn st.pool ctx q m hq]
        refine ⟨h.1, ?_⟩
        intro q2 hq2
        simp only [Option.some.injEq] at hq2
        subst hq2
        have hb := h.2 q hq
        simp only [List.length_append, List.length_cons, List.length_nil, hlen]
        omega
    · have hcf : isConnectionError exc = false := by
        simp at hc
        exact hc
      rcases hq : st.pool.queue with _ | q
      · have hexit : RpcContext.exit st.pool ctx exc =
            Except.error PyErr.attributeError := by
          rw [exit_eq_put_back st.pool ctx exc hcf]
          simp [ClusterRpcProxyPool._put_back, hq]
        simp only [exitWith, hget, hexit]
        exact h
      · have hexit : RpcContext.exit st.pool ctx exc =
            Except.ok { st.pool with queue := some (q ++ [ctx]) } := by
          rw [exit_eq_put_back st.pool ctx exc hcf]
          simp [ClusterRpcProxyPool._put_back, hq]
        simp only [exitWith, hget, hexit]
        refine ⟨h.1, ?_⟩
        intro q2 hq2
        simp only [Option.some.injEq] at hq2
        subst hq2
        have hb := h.2 q hq
        simp only [List.length_append, List.length_cons, List.length_nil, hlen]
        omega

theorem stepOp_inv (N : Nat) (st : SysState) (op : Op) (hop : op ≠ Op.start)
    (h : SysInv N st) : SysInv N (stepOp st op) := by
  cases op with
  | start => exact absurd rfl hop
  | checkout =>
    rcases hq : st.pool.queue with _ | q
    · simp only [stepOp, ClusterRpcProxyPool.next, hq]
      exact h
    · rcases q with _ | ⟨x, rest⟩
      · simp only [stepOp, ClusterRpcProxyPool.next, hq]
        exact h
      · simp only [stepOp, ClusterRpcProxyPool.next, hq]
        refine ⟨h.1, ?_⟩
        intro q2 hq2
        simp only [Option.some.injEq] at hq2
        subst hq2
        have hb := h.2 (x :: rest) hq
        simp only [List.length_cons] at hb ⊢
        omega
  | checkin i => exact exitWith_inv N st i none h
  | exitConn i => exact exitWith_inv N st i _ h
  | exitStale i => exact exitWith_inv N st i _ h
  | stopPool =>
    rcases hq : st.pool.queue with _ | q
    · simp only [stepOp, ClusterRpcProxyPool.stop, hq]
      exact h
    · simp only [stepOp, ClusterRpcProxyPool.stop, hq]
      exact ⟨h.1, by intro q2 hq2; cases hq2⟩

/-- Before the first start nothing can happen: every non-start operation
on a pool whose queue attribute is absent and with nothing checked out
leaves the state unchanged. -/
theorem stepOp_stasis (st : SysState) (op : Op) (hop : op ≠ Op.start)
    (hq : st.pool.queue = none) (hout : st.out = []) : stepOp st op = st := by
  cases op with
  | start => exact absurd rfl hop
  | checkout => simp [stepOp, ClusterRpcProxyPool.next, hq]
  | checkin i => simp [stepOp, exitWith, hout]
  | exitConn i => simp [stepOp, exitWith, hout]
  | exitStale i => simp [stepOp, exitWith, hout]
  | stopPool => simp [stepOp, ClusterRpcProxyPool.stop, hq]

theorem runOps_inv (N : Nat) : ∀ (ops : List Op) (st : SysState),
    (∀ op ∈ ops, op ≠ Op.start) → SysInv N st → SysInv N (runOps ops st) := by
  intro ops
  induction ops with
  | nil => intro st _ h; exact h
  | cons op rest ih =>
    intro st hops h
    have h1 : SysInv N (stepOp st op) :=
      stepOp_inv N st op (hops op (List.mem_cons_self op rest)) h
    exact ih (stepOp st op) (fun o ho => hops o (List.mem_cons_of_mem op ho)) h1

theorem namedPool_not_started (s : PySettings) (name : String) :
    (namedPool s name).is_started = false := by
  simp [namedPool, ClusterRpcProxyPool.is_started, ClusterRpcProxyPool.ofSettings]

theorem isEmpty_false_of_ne_nil {names : List String} (h : names ≠ []) :
    names.isEmpty = false := by
  cases names with
  | nil => exact absurd rfl h
  | cons a rest => rfl

/-- Evaluation of the first registry access when multi pools are
configured and no name is requested: the whole dict of freshly
constructed pools is returned, none of them started. -/
theorem get_pool_multi_noname (s : PySettings) (names : List String)
    (hc : s.NAMEKO_CONFIG = true) (hm : s.NAMEKO_MULTI_POOL = some names)
    (hne : names ≠ []) :
    get_pool s none none =
      Except.ok (GetPoolRes.mapping (multiPools s names),
                 GlobalPool.multi (multiPools s names)) := by
  rw [get_pool]
  simp only [globalTruthy, Bool.false_eq_true, if_false]
  rw [constructGlobal, hc, hm]
  simp only [Bool.true_eq_false, if_false, isEmpty_false_of_ne_nil hne,
    Bool.false_eq_true]

/-- Evaluation of the first registry access for a declared name: every
declared pool is constructed, then the requested one alone is started
and returned. -/
theorem get_pool_multi_named (s : PySettings) (names : List String) (n : String)
    (hc : s.NAMEKO_CONFIG = true) (hm : s.NAMEKO_MULTI_POOL = some names)
    (hne : names ≠ []) (hn : n ∈ names) :
    get_pool s none (some n) =
      Except.ok (GetPoolRes.pool ((namedPool s n).start),
        GlobalPool.multi (setAssoc (multiPools s names) n ((namedPool s n).start))) := by
  rw [get_pool]
  simp only [globalTruthy, Bool.false_eq_true, if_false]
  rw [constructGlobal, hc, hm]
  simp only [Bool.true_eq_false, if_false, isEmpty_false_of_ne_nil hne,
    Bool.false_eq_true]
  have hfind : (multiPools s names).find? (fun kv => kv.1 == n) =
      some (n, namedPool s n) := by
    rw [multiPools]
    exact find_map_pair (namedPool s) n names hn
  rw [hfind]
  simp only [namedPool_not_started, Bool.false_eq_true, if_false]

/- ------------------------------------------------------------------ -/
/- Claim theorems.                                                    -/
/- ------------------------------------------------------------------ -/

/-- A started pool of capacity 4 with its first session checked out:
queue [1, 2, 3], ghost counter 4, nothing closed. -/
def poolC1 : ClusterRpcProxyPool := afterCheckout ((initPool 4).start)

/-- Claim C1 (code_bug evidence): a scope of a checked-out session of a
started pool ends with a RuntimeError carrying either of the two
stale-consumer messages, yet the exit handler takes the put_back branch:
the session is returned to the buffer alive, no buffered session is
destroyed or replaced (closed stays empty, the ghost counter stays 4,
sessions 1, 2, 3 stay buffered).  The claimed drain/refill/destroy never
happens because `exc_value == "..."` compares an exception instance with
a string, which is always False. -/
theorem C1_stale_message_put_back :
    RpcContext.exit poolC1 0 (some (PyType.runtimeError, consumerStoppedMsg)) =
      Except.ok { pool_size := 4, context_data := none, timeout := none,
                  state := "STARTED", queue := some [1, 2, 3, 0],
                  nextId := 4, closed := [] } ∧
    RpcContext.exit poolC1 0 (some (PyType.runtimeError, consumerDisconnectedMsg)) =
      Except.ok { pool_size := 4, context_data := none, timeout := none,
                  state := "STARTED", queue := some [1, 2, 3, 0],
                  nextId := 4, closed := [] } := by
  constructor <;> rfl

/-- A started pool of capacity 1 whose only session has been checked
out: the buffer exists and is empty. -/
def poolC5empty : ClusterRpcProxyPool := afterCheckout ((initPool 1).start)

/-- A pool that was started and then stopped: the buffer is gone. -/
def poolC5stopped : ClusterRpcProxyPool := afterStop ((initPool 1).start)

/-- Claim C5 (counterexample): on a started pool with an empty buffer,
checkout does NOT block until a checkin occurs — it raises queue.Empty
immediately (get is called with timeout=False, an already-expired
deadline).  Moreover an invalid-state (attribute) error is not confined
to never-started pools: a started-then-stopped pool raises it too while
is_started still reads true. -/
theorem C5_blocking_cex :
    poolC5empty.queue = some [] ∧
    poolC5empty.next false = NextResult.raisesEmpty ∧
    poolC5empty.next false ≠ NextResult.blocksForever ∧
    poolC5stopped.is_started = true ∧
    poolC5stopped.next false = NextResult.attributeError := by
  refine ⟨rfl, rfl, ?_, rfl, rfl⟩
  decide

/-- Claim C5 (amended): for every pool, the timeout argument of next is
accepted but ignored; checkout on a present-but-empty buffer raises the
empty-queue error immediately rather than blocking; and checkout fails
with an invalid-state (attribute) error exactly when the buffer is
absent — pool never started or already stopped. -/
theorem C5_next_semantics (p : ClusterRpcProxyPool) (t1 t2 : Bool) :
    p.next t1 = p.next t2 ∧
    (p.queue = some [] → p.next t1 = NextResult.raisesEmpty) ∧
    (p.queue = none → p.next t1 = NextResult.attributeError) := by
  refine ⟨rfl, ?_, ?_⟩ <;>
    intro hq <;>
    simp [ClusterRpcProxyPool.next, hq]

theorem C5_next_semantics_witness :
    poolC5empty.next false = NextResult.raisesEmpty ∧
    poolC5stopped.next true = NextResult.attributeError :=
  ⟨(C5_next_semantics poolC5empty false true).2.1 (by decide),
   (C5_next_semantics poolC5stopped true false).2.2 (by decide)⟩

/-- Claim C6: on a started pool with a nonempty buffer, a checkout
followed by a scope that ends normally or with an error matching neither
failure signature returns the very session to the buffer alive (it is
enqueued at the back, nothing is closed) and the buffer size is exactly
what it was before the checkout. -/
theorem C6_normal_release_round_trip (p : ClusterRpcProxyPool) (x : Nat)
    (rest : List Nat) (exc : ExcInfo) (hq : p.queue = some (x :: rest))
    (hconn : isConnectionError exc = false)
    (hstale : isStaleConsumerError exc = false) :
    p.next false = NextResult.ok x { p with queue := some rest } ∧
    ∃ p2, RpcContext.exit { p with queue := some rest } x exc = Except.ok p2 ∧
      p2.queue = some (rest ++ [x]) ∧ p2.closed = p.closed ∧
      bufSize p2 = bufSize p := by
  refine ⟨by simp [ClusterRpcProxyPool.next, hq],
          { p with queue := some (rest ++ [x]) }, ?_, rfl, rfl, ?_⟩
  · rw [exit_eq_put_back _ _ _ hconn]
    rfl
  · simp [bufSize, hq]

/-- A started pool of capacity 1 (buffer [0]). -/
def poolC6 : ClusterRpcProxyPool := (initPool 1).start

theorem C6_normal_release_round_trip_witness :
    (poolC6.queue = some [0] ∧ isConnectionError none = false ∧
      isStaleConsumerError none = false) ∧
    (poolC6.next false = NextResult.ok 0 { poolC6 with queue := some [] } ∧
     ∃ p2, RpcContext.exit { poolC6 with queue := some [] } 0 none = Except.ok p2 ∧
       p2.queue = some ([] ++ [0]) ∧ p2.closed = poolC6.closed ∧
       bufSize p2 = bufSize poolC6) :=
  ⟨⟨by decide, rfl, rfl⟩,
   C6_normal_release_round_trip poolC6 0 [] none (by decide) rfl rfl⟩

/-- Claim C7: stop() on a started pool closes every buffered session (in
buffer order), discards the buffer, and any subsequent checkout fails
with the invalid-state (attribute) error. -/
theorem C7_stop_destroys_all (p : ClusterRpcProxyPool) (q : List Nat)
    (hq : p.queue = some q) :
    ∃ p2, p.stop = Except.ok p2 ∧ p2.closed = p.closed ++ q ∧
      p2.queue = none ∧ ∀ t, p2.next t = NextResult.attributeError := by
  refine ⟨{ p with queue := none, closed := p.closed ++ q }, ?_, rfl, rfl, ?_⟩
  · simp [ClusterRpcProxyPool.stop, hq]
  · intro t
    rfl

/-- A started pool of capacity 2 (buffer [0, 1]). -/
def poolC7 : ClusterRpcProxyPool := (initPool 2).start

theorem C7_stop_destroys_all_witness :
    poolC7.queue = some [0, 1] ∧
    (∃ p2, poolC7.stop = Except.ok p2 ∧ p2.closed = poolC7.closed ++ [0, 1] ∧
      p2.queue = none ∧ ∀ t, p2.next t = NextResult.attributeError) :=
  ⟨by decide, C7_stop_destroys_all poolC7 [0, 1] (by decide)⟩

/-- Claim C8: is_started is true exactly when state is not NOT_STARTED,
and stop() leaves the state untouched, so a started pool still reports
is_started after stop(). -/
theorem C8_is_started_survives_stop (p : ClusterRpcProxyPool) :
    (p.is_started = true ↔ p.state ≠ "NOT_STARTED") ∧
    (∀ q p2, p.queue = some q → p.stop = Except.ok p2 →
      p2.state = p.state ∧ (p.is_started = true → p2.is_started = true)) := by
  constructor
  · simp [ClusterRpcProxyPool.is_started]
  · intro q p2 hq hstop
    simp only [ClusterRpcProxyPool.stop, hq, Except.ok.injEq] at hstop
    subst hstop
    exact ⟨rfl, fun h => h⟩

theorem C8_is_started_survives_stop_witness :
    ((initPool 1).start.is_started = true ↔ (initPool 1).start.state ≠ "NOT_STARTED") ∧
    ((initPool 1).start.queue = some [0] ∧
      ∃ p2, (initPool 1).start.stop = Except.ok p2 ∧ p2.is_started = true) := by
  refine ⟨(C8_is_started_survives_stop ((initPool 1).start)).1, by decide, ?_⟩
  refine ⟨{ (initPool 1).start with queue := none, closed := [] ++ [0] }, rfl, ?_⟩
  exact ((C8_is_started_survives_stop ((initPool 1).start)).2 [0]
    { (initPool 1).start with queue := none, closed := [] ++ [0] }
    (by decide) rfl).2 (by decide)

/-- Claim C9: calling start() on an already-started pool replaces the
buffer with pool_size freshly created sessions; the previously buffered
sessions appear neither in the new buffer nor in the closed list — they
are dropped without close ever being called on them. -/
theorem C9_restart_drops_without_close (p : ClusterRpcProxyPool) (q : List Nat)
    (hq : p.queue = some q) (hfresh : ∀ x ∈ q, x < p.nextId) :
    p.start.queue = some (freshIds p.nextId p.pool_size) ∧
    (freshIds p.nextId p.pool_size).length = p.pool_size ∧
    p.start.closed = p.closed ∧
    ∀ x ∈ q, x ∉ freshIds p.nextId p.pool_size := by
  refine ⟨rfl, freshIds_length _ _, rfl, ?_⟩
  intro x hx hmem
  have h1 := hfresh x hx
  have h2 := mem_freshIds hmem
  omega

/-- A started pool of capacity 1 (buffer [0], counter 1). -/
def poolC9 : ClusterRpcProxyPool := (initPool 1).start

theorem C9_restart_drops_without_close_witness :
    (poolC9.queue = some [0] ∧ ∀ x ∈ [0], x < poolC9.nextId) ∧
    (poolC9.start.queue = some (freshIds poolC9.nextId poolC9.pool_size) ∧
     (freshIds poolC9.nextId poolC9.pool_size).length = poolC9.pool_size ∧
     poolC9.start.closed = poolC9.closed ∧
     ∀ x ∈ [0], x ∉ freshIds poolC9.nextId poolC9.pool_size) :=
  ⟨⟨by decide, by decide⟩,
   C9_restart_drops_without_close poolC9 [0] (by decide) (by decide)⟩

/-- Claim C3: a scope of a checked-out session ending with a
ConnectionError creates exactly one new session and enqueues it at the
back (the previously buffered sessions are untouched, in place, in
order), closes the triggering session, and — when the buffer held
capacity minus one sessions, as after a single checkout from a full
pool — brings the buffer back to exactly capacity. -/
theorem C3_connection_error_replaces_one (p : ClusterRpcProxyPool) (ctx : Nat)
    (q : List Nat) (m : String) (hq : p.queue = some q)
    (hfresh : ∀ x ∈ q, x < p.nextId) :
    ∃ p2, RpcContext.exit p ctx (some (PyType.connectionError, m)) = Except.ok p2 ∧
      p2.queue = some (q ++ [p.nextId]) ∧
      p.nextId ∉ q ∧
      p2.closed = p.closed ++ [ctx] ∧
      (q.length + 1 = p.pool_size → bufSize p2 = p.pool_size) := by
  refine ⟨{ p with
      queue := some (q ++ [p.nextId])
      nextId := p.nextId + 1
      closed := p.closed ++ [ctx] },
    exit_conn p ctx q m hq, rfl, ?_, rfl, ?_⟩
  · intro hmem
    exact absurd (hfresh p.nextId hmem) (lt_irrefl p.nextId)
  · intro hlen
    simp [bufSize]
    omega

/-- A started pool of capacity 2 with its first session checked out:
queue [1], counter 2. -/
def poolC3 : ClusterRpcProxyPool := afterCheckout ((initPool 2).start)

theorem C3_connection_error_replaces_one_witness :
    (poolC3.queue = some [1] ∧ ∀ x ∈ [1], x < poolC3.nextId) ∧
    (∃ p2, RpcContext.exit poolC3 0 (some (PyType.connectionError, "conn")) =
        Except.ok p2 ∧
      p2.queue = some ([1] ++ [poolC3.nextId]) ∧
      poolC3.nextId ∉ [1] ∧
      p2.closed = poolC3.closed ++ [0] ∧
      ([1].length + 1 = poolC3.pool_size → bufSize p2 = poolC3.pool_size)) :=
  ⟨⟨by decide, by decide⟩,
   C3_connection_error_replaces_one poolC3 0 [1] "conn" (by decide) (by decide)⟩

/-- Claim C2 (counterexample): capacity 1, history start; checkout;
start; checkin — the second start builds a fresh buffer of one session
while the first session is still checked out, and its checkin then
pushes the buffer to 2 sessions, exceeding the capacity 1.  The queue is
unbounded (maxsize 0), so nothing stops the excess put. -/
theorem C2_buffer_bound_cex :
    bufSize (runOps [Op.start, Op.checkout, Op.start, Op.checkin 0]
      (initState 1)).pool = 2 ∧
    ¬ bufSize (runOps [Op.start, Op.checkout, Op.start, Op.checkin 0]
      (initState 1)).pool ≤ 1 := by
  refine ⟨rfl, ?_⟩
  decide

theorem startCount_cons_start (rest : List Op) :
    startCount (Op.start :: rest) = startCount rest + 1 := by
  simp [startCount, List.filter]

theorem startCount_cons_ne (op : Op) (rest : List Op) (h : op ≠ Op.start) :
    startCount (op :: rest) = startCount rest := by
  simp [startCount, List.filter, h]

theorem no_start_of_startCount_zero (ops : List Op) (h : startCount ops = 0) :
    ∀ op ∈ ops, op ≠ Op.start := by
  intro op hmem hop
  subst hop
  have hmem2 : Op.start ∈ ops.filter (fun o => decide (o = Op.start)) := by
    rw [List.mem_filter]
    exact ⟨hmem, by simp⟩
  have hpos : 0 < (ops.filter (fun o => decide (o = Op.start))).length :=
    List.length_pos_of_mem hmem2
  rw [startCount] at h
  omega

theorem bufSize_le_of_inv (N : Nat) (st : SysState) (h : SysInv N st) :
    bufSize st.pool ≤ N := by
  rcases hq : st.pool.queue with _ | q
  · simp [bufSize, hq]
  · have := h.2 q hq
    simp [bufSize, hq]
    omega

/-- Claim C2 (amended): for every capacity N and every operation history
that invokes start at most once, the buffer never holds more than N
sessions.  (The counterexample above shows the restriction is needed: a
second start while sessions are checked out lets later checkins push the
unbounded queue past N.) -/
theorem C2_buffer_bound_single_start (N : Nat) (ops : List Op)
    (h : startCount ops ≤ 1) :
    bufSize (runOps ops (initState N)).pool ≤ N := by
  induction ops with
  | nil =>
    simp [runOps, bufSize, initState, initPool, ClusterRpcProxyPool.ofSettings]
  | cons op rest ih =>
    by_cases hop : op = Op.start
    · subst hop
      rw [startCount_cons_start] at h
      have hz : startCount rest = 0 := by omega
      have hno := no_start_of_startCount_zero rest hz
      have hstep : runOps (Op.start :: rest) (initState N) =
          runOps rest (stepOp (initState N) Op.start) := rfl
      rw [hstep]
      have hinv : SysInv N (stepOp (initState N) Op.start) := by
        refine ⟨rfl, ?_⟩
        intro q hq
        simp only [stepOp, initState, ClusterRpcProxyPool.start,
          Option.some.injEq] at hq
        subst hq
        simp [stepOp, initState, freshIds_length, initPool,
          ClusterRpcProxyPool.ofSettings]
      exact bufSize_le_of_inv N _ (runOps_inv N rest _ hno hinv)
    · rw [startCount_cons_ne op rest hop] at h
      have hstep : runOps (op :: rest) (initState N) =
          runOps rest (stepOp (initState N) op) := rfl
      rw [hstep, stepOp_stasis (initState N) op hop rfl rfl]
      exact ih h

theorem C2_buffer_bound_single_start_witness :
    startCount [Op.start, Op.checkout, Op.checkin 0] ≤ 1 ∧
    bufSize (runOps [Op.start, Op.checkout, Op.checkin 0] (initState 2)).pool ≤ 2 :=
  ⟨by decide,
   C2_buffer_bound_single_start 2 [Op.start, Op.checkout, Op.checkin 0] (by decide)⟩

/-- Concrete settings for the context-merge counterexample: the shared
default bag and the bag declared for pool "a" both bind key "k". -/
def settingsC4 : PySettings :=
  { NAMEKO_POOL_SIZE := some 1
    NAMEKO_CONTEXT_DATA := some [("k", 1)]
    NAMEKO_TIMEOUT := none
    NAMEKO_CONFIG := true
    NAMEKO_MULTI_POOL := some ["a"]
    NAMEKO_MULTI_CONTEXT_DATA := some [("a", [("k", 2)])] }

/-- Value bound to key k in the context data of the pool a get_pool call
returns (none when the call does not return a single pool). -/
def ctxValueAt (r : Except PyErr (GetPoolRes × GlobalPool)) (k : String) :
    Option Nat :=
  match r with
  | Except.ok (GetPoolRes.pool p, _) => Dict.getd (p.context_data.getD []) k
  | _ => none

/-- Claim C4 (counterexample): with default bag k=1 and name-specific bag
k=2 for pool "a", the pool returned for "a" carries k=1 — the SHARED
DEFAULT value, not the name-specific one the claim requires.  The source
runs pool_context_data.update(context_data), so the default bag is
assigned over the specific bag. -/
theorem C4_merge_direction_cex :
    ctxValueAt (get_pool settingsC4 none (some "a")) "k" = some 1 ∧
    ctxValueAt (get_pool settingsC4 none (some "a")) "k" ≠ some 2 := by
  refine ⟨rfl, ?_⟩
  decide

/-- Claim C4 (amended): the pool returned for a declared name has context
data equal to that name-specific bag overridden by the shared default
bag — keys present in both take the value from the shared default bag
(pointwise: default entry first, specific entry as fallback). -/
theorem C4_default_overrides_specific (s : PySettings) (names : List String)
    (n : String) (hc : s.NAMEKO_CONFIG = true)
    (hm : s.NAMEKO_MULTI_POOL = some names) (hne : names ≠ []) (hn : n ∈ names)
    (hnd : Dict.keysNodup (s.NAMEKO_CONTEXT_DATA.getD [])) :
    ∃ p g2, get_pool s none (some n) = Except.ok (GetPoolRes.pool p, g2) ∧
      p.context_data = some (poolContextFor s n) ∧
      poolContextFor s n =
        Dict.update (specificBag s n) (s.NAMEKO_CONTEXT_DATA.getD []) ∧
      ∀ k, Dict.getd (poolContextFor s n) k =
        optOr (Dict.getd (s.NAMEKO_CONTEXT_DATA.getD []) k)
              (Dict.getd (specificBag s n) k) := by
  refine ⟨(namedPool s n).start, _,
    get_pool_multi_named s names n hc hm hne hn, rfl, rfl, ?_⟩
  intro k
  exact getd_update (s.NAMEKO_CONTEXT_DATA.getD []) (specificBag s n) hnd k

theorem C4_default_overrides_specific_witness :
    (settingsC4.NAMEKO_CONFIG = true ∧
      settingsC4.NAMEKO_MULTI_POOL = some ["a"] ∧
      (["a"] : List String) ≠ [] ∧ "a" ∈ ["a"] ∧
      Dict.keysNodup (settingsC4.NAMEKO_CONTEXT_DATA.getD [])) ∧
    (∃ p g2, get_pool settingsC4 none (some "a") =
        Except.ok (GetPoolRes.pool p, g2) ∧
      p.context_data = some (poolContextFor settingsC4 "a") ∧
      poolContextFor settingsC4 "a" =
        Dict.update (specificBag settingsC4 "a")
          (settingsC4.NAMEKO_CONTEXT_DATA.getD []) ∧
      ∀ k, Dict.getd (poolContextFor settingsC4 "a") k =
        optOr (Dict.getd (settingsC4.NAMEKO_CONTEXT_DATA.getD []) k)
              (Dict.getd (specificBag settingsC4 "a") k)) :=
  ⟨⟨rfl, rfl, by decide, by decide, by decide⟩,
   C4_default_overrides_specific settingsC4 ["a"] "a" rfl rfl (by decide)
     (by decide) (by decide)⟩

/-- Claim C10: with multi pools configured, the first registry access
builds every declared pool, started none of them; a no-name access hands
back the whole name-to-pool mapping (not a single pool); a named access
starts and returns exactly the requested pool, every other declared pool
staying unstarted. -/
theorem C10_multi_registry_lazy (s : PySettings) (names : List String) (n : String)
    (hc : s.NAMEKO_CONFIG = true) (hm : s.NAMEKO_MULTI_POOL = some names)
    (hne : names ≠ []) (hn : n ∈ names) :
    get_pool s none none =
      Except.ok (GetPoolRes.mapping (multiPools s names),
        GlobalPool.multi (multiPools s names)) ∧
    (∀ kv ∈ multiPools s names, kv.2.is_started = false) ∧
    (multiPools s names).map Prod.fst = names ∧
    get_pool s none (some n) =
      Except.ok (GetPoolRes.pool ((namedPool s n).start),
        GlobalPool.multi (setAssoc (multiPools s names) n ((namedPool s n).start))) ∧
    ((namedPool s n).start).is_started = true ∧
    (∀ kv ∈ setAssoc (multiPools s names) n ((namedPool s n).start),
      kv.1 ≠ n → kv.2.is_started = false) := by
  refine ⟨get_pool_multi_noname s names hc hm hne, ?_, ?_,
    get_pool_multi_named s names n hc hm hne hn, rfl, ?_⟩
  · intro kv hkv
    simp only [multiPools, List.mem_map] at hkv
    obtain ⟨a, _, rfl⟩ := hkv
    exact namedPool_not_started s a
  · rw [multiPools, List.map_map]
    have hmap : List.map (Prod.fst ∘ fun name => (name, namedPool s name)) names =
        List.map id names :=
      List.map_congr_left (fun a _ => rfl)
    rw [hmap, List.map_id]
  · intro kv hkv hne2
    have hkv2 := mem_setAssoc_ne (multiPools s names) n
      ((namedPool s n).start) kv hkv hne2
    simp only [multiPools, List.mem_map] at hkv2
    obtain ⟨a, _, rfl⟩ := hkv2
    exact namedPool_not_started s a

/-- Concrete settings declaring two named pools and no context bags. -/
def settingsC10 : PySettings :=
  { NAMEKO_POOL_SIZE := some 1
    NAMEKO_CONTEXT_DATA := none
    NAMEKO_TIMEOUT := none
    NAMEKO_CONFIG := true
    NAMEKO_MULTI_POOL := some ["a", "b"]
    NAMEKO_MULTI_CONTEXT_DATA := none }

theorem C10_multi_registry_lazy_witness :
    get_pool settingsC10 none none =
      Except.ok (GetPoolRes.mapping (multiPools settingsC10 ["a", "b"]),
        GlobalPool.multi (multiPools settingsC10 ["a", "b"])) ∧
    (∀ kv ∈ multiPools settingsC10 ["a", "b"], kv.2.is_started = false) ∧
    ((namedPool settingsC10 "b").start).is_started = true :=
  ⟨(C10_multi_registry_lazy settingsC10 ["a", "b"] "b" rfl rfl (by decide)
      (by decide)).1,
   (C10_multi_registry_lazy settingsC10 ["a", "b"] "b" rfl rfl (by decide)
      (by decide)).2.1,
   (C10_multi_registry_lazy settingsC10 ["a", "b"] "b" rfl rfl (by decide)
      (by decide)).2.2.2.2.1⟩
